import Mathlib

/-!
# Verification of `portable_python/setup_portable_env.py`

A shallow embedding of the portable-Python environment provisioner.

Modelling choices:

* Filesystem paths are `pathlib`-style component lists (`List String`);
  `pjoin` models the `/` operator of `pathlib.Path`.  `pathStr` models
  `str(path)` rendering on the Windows host the script targets
  (the script downloads `python.exe` and writes `.bat` files).
* The filesystem is an explicit state `FS`: a (shadowing) association list
  of files plus a list of existing directories.
* External effects (HTTP fetches, zip extraction, subprocess execution,
  console output) are recorded in an `Event` trace.  Network content is an
  oracle `net : String → String` (URL to body); a transport failure is an
  uncaught fatal exception in the source and is outside the modelled
  behaviours.  Zip contents are an oracle
  `unzip : String → List (List String × String)` from archive bytes to
  relative entries.  Subprocess exit codes are an oracle
  `exitOf : List String → Int`; the source never reads them.
-/

/-- An observable side effect of the provisioner, in program order. -/
inductive Event where
  | download (url : String) (dest : List String)
  | extract (zip : List String) (dest : List String)
  | run (args : List String) (code : Int)
  | print (msg : String)
deriving DecidableEq

/-- The filesystem state: files as a shadowing association list from path
components to text content (the head is the most recent write), and the set
of directories that exist. -/
structure FS where
  files : List (List String × String)
  dirs : List (List String)
deriving DecidableEq

/-- Association-list lookup for file contents. -/
def lookupFile : List (List String × String) → List String → Option String
  | [], _ => none
  | e :: rest, p => if e.1 = p then some e.2 else lookupFile rest p

/-- Removes every entry for a path. -/
def removeFile : List (List String × String) → List String → List (List String × String)
  | [], _ => []
  | e :: rest, p => if e.1 = p then removeFile rest p else e :: removeFile rest p

/-- Reading a file: the most recent write to that path, if any.  Models both
`open(p).read()` and `p.exists()` queries. -/
def FS.read (fs : FS) (p : List String) : Option String :=
  lookupFile fs.files p

/-- Models `Path.exists()` for files. -/
def FS.existsFile (fs : FS) (p : List String) : Bool :=
  (fs.read p).isSome

/-- Models `open(p, "w").write(c)`: later reads of `p` see `c`. -/
def FS.write (fs : FS) (p : List String) (c : String) : FS :=
  { fs with files := (p, c) :: fs.files }

/-- Models `Path.unlink()`. -/
def FS.unlink (fs : FS) (p : List String) : FS :=
  { fs with files := removeFile fs.files p }

/-- Models `Path.mkdir(exist_ok=True)`. -/
def FS.mkdir (fs : FS) (d : List String) : FS :=
  if d ∈ fs.dirs then fs else { fs with dirs := d :: fs.dirs }

/-- Models `ZipFile.extractall(dir)`: every archive entry is written under
`dir`, unconditionally overwriting. -/
def FS.writeAll (fs : FS) (dir : List String) : List (List String × String) → FS
  | [] => fs
  | e :: rest => (fs.write (dir ++ e.1) e.2).writeAll dir rest

/-- The running state of the provisioner: the filesystem and the trace of
external effects so far. -/
structure RunState where
  fs : FS
  trace : List Event
deriving DecidableEq

/-- Record a `print(...)` call. -/
def logPrint (st : RunState) (msg : String) : RunState :=
  { st with trace := st.trace ++ [Event.print msg] }

/-- Models `subprocess.run(args)` (lines 95 and 101): the exit code is
produced by the oracle and recorded, but never inspected by the program. -/
def runProc (st : RunState) (exitOf : List String → Int) (args : List String) : RunState :=
  { st with trace := st.trace ++ [Event.run args (exitOf args)] }

/-- Models the `/` operator of `pathlib.Path`. -/
def pjoin (a : List String) (b : String) : List String :=
  a ++ [b]

/-- Models `str(path)` on the Windows host the script targets. -/
def pathStr (p : List String) : String :=
  String.intercalate "\\" p

/-- `project_root / "portable_python"` (line 50). -/
def portableDirOf (root : List String) : List String :=
  pjoin root "portable_python"

/-- `portable_dir / "python"` (line 51). -/
def pythonDirOf (root : List String) : List String :=
  pjoin (portableDirOf root) "python"

/-- `portable_dir / "python.zip"` (line 62). -/
def pythonZipOf (root : List String) : List String :=
  pjoin (portableDirOf root) "python.zip"

/-- `python_dir / "python310._pth"` (line 74). -/
def pthFileOf (root : List String) : List String :=
  pjoin (pythonDirOf root) "python310._pth"

/-- `portable_dir / "get-pip.py"` (line 87). -/
def pipScriptOf (root : List String) : List String :=
  pjoin (portableDirOf root) "get-pip.py"

/-- `python_dir / "python.exe"` (line 94). -/
def pythonExeOf (root : List String) : List String :=
  pjoin (pythonDirOf root) "python.exe"

/-- `project_root / "requirements.txt"` (line 98). -/
def requirementsOf (root : List String) : List String :=
  pjoin root "requirements.txt"

/-- `project_root / "activate_portable.bat"` (line 120). -/
def activateBatOf (root : List String) : List String :=
  pjoin root "activate_portable.bat"

/-- `project_root / "deactivate_portable.bat"` (line 132). -/
def deactivateBatOf (root : List String) : List String :=
  pjoin root "deactivate_portable.bat"

/-- The fixed URL of the amd64 embeddable distribution (line 23). -/
def urlAmd64 : String :=
  "https://www.python.org/ftp/python/3.10.11/python-3.10.11-embed-amd64.zip"

/-- The fixed URL of the win32 embeddable distribution (line 25). -/
def urlWin32 : String :=
  "https://www.python.org/ftp/python/3.10.11/python-3.10.11-embed-win32.zip"

/-- The fixed URL of the pip bootstrap installer (line 90). -/
def getPipUrl : String :=
  "https://bootstrap.pypa.io/get-pip.py"

/-- Models `str.lower()` on the ASCII strings produced by the `platform`
module. -/
def strLower (s : String) : String :=
  ⟨s.data.map Char.toLower⟩

/-- `get_python_download_url` (lines 16-32).  The source reads
`platform.system().lower()` and `platform.machine().lower()`; here the raw
`platform` strings are explicit inputs. -/
def get_python_download_url (system0 machine0 : String) : Option String :=
  let system := strLower system0
  let machine := strLower machine0
  if system = "windows" then
    if machine = "amd64" ∨ machine = "x86_64" then some urlAmd64
    else some urlWin32
  else if system = "linux" then none
  else if system = "darwin" then none
  else none

/-- `download_file` (lines 34-38): print, fetch the URL body to the
destination path, print. -/
def download_file (st : RunState) (net : String → String) (url : String)
    (filename : List String) : RunState :=
  let st := logPrint st ("Downloading " ++ url ++ "...")
  let st := { st with fs := st.fs.write filename (net url),
                      trace := st.trace ++ [Event.download url filename] }
  logPrint st ("Downloaded to " ++ pathStr filename)

/-- `extract_zip` (lines 40-45): print, write every archive entry under the
destination directory, print. -/
def extract_zip (st : RunState) (unzip : String → List (List String × String))
    (zip_path extract_to : List String) : RunState :=
  let st := logPrint st ("Extracting " ++ pathStr zip_path ++ "...")
  let entries := unzip ((st.fs.read zip_path).getD "")
  let st := { st with fs := st.fs.writeAll extract_to entries,
                      trace := st.trace ++ [Event.extract zip_path extract_to] }
  logPrint st ("Extracted to " ++ pathStr extract_to)

/-- The exact character sequence of the string literal on line 81 of the
source, `"..\n..\src\n..\src\utils\n"`, as written between its quotes. -/
def pthPrefixLiteral : List Char :=
  ['.', '.', '\\', 'n', '.', '.', '\\', 's', 'r', 'c', '\\', 'n',
   '.', '.', '\\', 's', 'r', 'c', '\\', 'u', 't', 'i', 'l', 's', '\\', 'n']

/-- Hexadecimal digit test, as in CPython's string-literal lexer. -/
def isHexDig (c : Char) : Bool :=
  (decide ('0' ≤ c) && decide (c ≤ '9')) ||
  (decide ('a' ≤ c) && decide (c ≤ 'f')) ||
  (decide ('A' ≤ c) && decide (c ≤ 'F'))

/-- Value of a hexadecimal digit. -/
def hexVal (c : Char) : Nat :=
  if decide ('0' ≤ c) && decide (c ≤ '9') then c.toNat - 48
  else if decide ('a' ≤ c) && decide (c ≤ 'f') then c.toNat - 87
  else c.toNat - 55

/-- CPython's decoding of a (non-raw) `str` literal body, restricted to the
escape forms relevant to this file: `\\`, `\n`, `\t`, `\r`, `\uXXXX`
(exactly four hex digits required — otherwise a `SyntaxError`), and any
other `\c` kept verbatim (CPython warns but accepts).  Returns `none`
exactly when CPython rejects the literal with a `SyntaxError`. -/
def pyDecode : List Char → Option (List Char)
  | [] => some []
  | '\\' :: '\\' :: rest => (pyDecode rest).map (fun r => '\\' :: r)
  | '\\' :: 'n' :: rest => (pyDecode rest).map (fun r => '\n' :: r)
  | '\\' :: 't' :: rest => (pyDecode rest).map (fun r => '\t' :: r)
  | '\\' :: 'r' :: rest => (pyDecode rest).map (fun r => '\r' :: r)
  | '\\' :: 'u' :: a :: b :: c :: d :: rest =>
      if isHexDig a && isHexDig b && isHexDig c && isHexDig d then
        (pyDecode rest).map (fun r =>
          Char.ofNat (((hexVal a * 16 + hexVal b) * 16 + hexVal c) * 16 + hexVal d) :: r)
      else none
  | '\\' :: 'u' :: _ => none
  | '\\' :: c :: rest => (pyDecode rest).map (fun r => '\\' :: c :: r)
  | '\\' :: [] => none
  | c :: rest => (pyDecode rest).map (fun r => c :: r)

/-- Modelled from the evident intent of line 81: the three project path
lines prepended to the path manifest.  The literal as written in the source
(`pthPrefixLiteral`) fails CPython's literal decoding (see the theorem on
`pyDecode`), so the value used here is its intended reading: `\n` as
newline and the remaining backslashes literal. -/
def pthHeader : String :=
  "..\n..\\src\n..\\src\\utils\n"

/-- The path-manifest patch step (lines 74-84): if `python310._pth` exists,
prepend the project path lines to its contents; otherwise do nothing. -/
def patch_pth (python_dir : List String) (st : RunState) : RunState :=
  let pth_file := pjoin python_dir "python310._pth"
  match st.fs.read pth_file with
  | some content => { st with fs := st.fs.write pth_file (pthHeader ++ content) }
  | none => st

/-- The pip bootstrap-fetch step (lines 87-90): download `get-pip.py` only
when no copy already exists at `portable_dir / "get-pip.py"`. -/
def bootstrap_pip (portable_dir : List String) (net : String → String)
    (st : RunState) : RunState :=
  let pip_script := pjoin portable_dir "get-pip.py"
  if st.fs.existsFile pip_script then st
  else
    let st := logPrint st "Downloading get-pip.py..."
    { st with fs := st.fs.write pip_script (net getPipUrl),
              trace := st.trace ++ [Event.download getPipUrl pip_script] }

/-- Argument list of the pip-installer bootstrap subprocess (line 95). -/
def getPipArgs (root : List String) : List String :=
  [pathStr (pythonExeOf root), pathStr (pipScriptOf root), "--no-warn-script-location"]

/-- Argument list of the dependency-installation subprocess (line 101). -/
def installArgs (root : List String) : List String :=
  [pathStr (pythonExeOf root), "-m", "pip", "install", "-r",
   pathStr (requirementsOf root), "--no-warn-script-location"]

/-- Content of `activate_portable.bat` (lines 122-129): the fixed template
with `project_root` and `python_dir` substituted. -/
def activateContent (project_root python_dir : String) : String :=
  "@echo off\necho Activating portable Python environment...\nset PYTHONPATH=" ++
  project_root ++ ";" ++ project_root ++ "\\src;" ++ project_root ++
  "\\src\\utils;%PYTHONPATH%\nset PATH=" ++ python_dir ++ ";" ++ python_dir ++
  "\\Scripts;%PATH%\necho Portable Python environment activated.\necho To run the application, use: python src\\main.py\ncmd /k\n"

/-- Content of `deactivate_portable.bat` (lines 134-140): a fixed text with
no substitution. -/
def deactivateContent : String :=
  "@echo off\necho Deactivating portable Python environment...\nset PYTHONPATH=\nset PATH=%ORIGINAL_PATH%\necho Portable Python environment deactivated.\ncmd /k\n"

/-- `create_activation_scripts` (lines 113-144): unconditionally overwrite
the two fixed-path scripts, then print the three report lines. -/
def create_activation_scripts (root : List String) (st : RunState) : RunState :=
  let activate_bat := activateBatOf root
  let actContent := activateContent (pathStr root) (pathStr (pythonDirOf root))
  let st := { st with fs := st.fs.write activate_bat actContent }
  let deactivate_bat := deactivateBatOf root
  let st := { st with fs := st.fs.write deactivate_bat deactivateContent }
  let st := logPrint st "Activation scripts created:"
  let st := logPrint st ("  - " ++ pathStr activate_bat)
  logPrint st ("  - " ++ pathStr deactivate_bat)

/-- `setup_portable_python` (lines 47-111).  Inputs: the raw
`platform.system()` / `platform.machine()` strings, the project root path,
the three effect oracles, and the initial filesystem.  Output: the returned
boolean and the final run state. -/
def setup_portable_python (system machine : String) (root : List String)
    (net : String → String) (unzip : String → List (List String × String))
    (exitOf : List String → Int) (fs0 : FS) : Bool × RunState :=
  let st : RunState := ⟨fs0, []⟩
  let st := logPrint st
    ("Setting up portable Python environment in " ++ pathStr (pythonDirOf root))
  let st := { st with fs := (st.fs.mkdir (portableDirOf root)).mkdir (pythonDirOf root) }
  match get_python_download_url system machine with
  | some python_url =>
      let st := download_file st net python_url (pythonZipOf root)
      let st := extract_zip st unzip (pythonZipOf root) (pythonDirOf root)
      let st := { st with fs := st.fs.unlink (pythonZipOf root) }
      let st := patch_pth (pythonDirOf root) st
      let st := bootstrap_pip (portableDirOf root) net st
      let st := logPrint st "Installing pip..."
      let st := runProc st exitOf (getPipArgs root)
      if st.fs.existsFile (requirementsOf root) then
        let st := logPrint st "Installing project dependencies..."
        let st := runProc st exitOf (installArgs root)
        let st := create_activation_scripts root st
        let st := logPrint st "Portable Python environment setup complete!"
        let st := logPrint st ("Python executable: " ++ pathStr (pythonExeOf root))
        (true, st)
      else
        let st := logPrint st
          "requirements.txt not found. Please create it with your project dependencies."
        (false, st)
  | none =>
      let st := logPrint st "Could not determine Python download URL for your system."
      let st := logPrint st
        "Please install Python 3.10 manually in the portable_python/python directory."
      (false, st)

/-- Contiguous-segment containment on character lists. -/
def listHasSeg (t : List Char) : List Char → Bool
  | [] => t.isEmpty
  | c :: rest => List.isPrefixOf t (c :: rest) || listHasSeg t rest

/-- Substring containment test. -/
def strContains (s t : String) : Bool :=
  listHasSeg t.data s.data

/-- Concrete oracles and states used by the witness theorems. -/
def wNet : String → String := fun _ => "ARCHIVE"

def wUnzip : String → List (List String × String) := fun _ => [(["python310._pth"], "python310.zip\n.\n")]

def wUnzipEmpty : String → List (List String × String) := fun _ => []

def wExit : List String → Int := fun _ => 0

def wExitFail : List String → Int := fun _ => 1

def wFS : FS := ⟨[], []⟩

def wFSreq : FS := ⟨[(["R", "requirements.txt"], "requests\n")], []⟩

def wStPip : RunState := ⟨⟨[(["P", "get-pip.py"], "old-installer")], []⟩, []⟩

def wStEmpty : RunState := ⟨⟨[], []⟩, []⟩

/-- The run state reached on the supported branch after download,
extraction, archive removal and the manifest patch — the composition of the
first statements of the supported branch of `setup_portable_python`, named
so that the pipeline can be reasoned about stage by stage. -/
def preInstallState (root : List String) (net : String → String)
    (unzip : String → List (List String × String)) (u : String) (fs0 : FS) : RunState :=
  let st : RunState := ⟨fs0, []⟩
  let st := logPrint st
    ("Setting up portable Python environment in " ++ pathStr (pythonDirOf root))
  let st := { st with fs := (st.fs.mkdir (portableDirOf root)).mkdir (pythonDirOf root) }
  let st := download_file st net u (pythonZipOf root)
  let st := extract_zip st unzip (pythonZipOf root) (pythonDirOf root)
  let st := { st with fs := st.fs.unlink (pythonZipOf root) }
  patch_pth (pythonDirOf root) st

/-- The supported branch of `setup_portable_python`, phrased via
`preInstallState`; definitionally equal to the branch body. -/
def setupSupported (root : List String) (net : String → String)
    (unzip : String → List (List String × String)) (exitOf : List String → Int)
    (u : String) (fs0 : FS) : Bool × RunState :=
  let st := bootstrap_pip (portableDirOf root) net (preInstallState root net unzip u fs0)
  let st := logPrint st "Installing pip..."
  let st := runProc st exitOf (getPipArgs root)
  if st.fs.existsFile (requirementsOf root) then
    let st := logPrint st "Installing project dependencies..."
    let st := runProc st exitOf (installArgs root)
    let st := create_activation_scripts root st
    let st := logPrint st "Portable Python environment setup complete!"
    let st := logPrint st ("Python executable: " ++ pathStr (pythonExeOf root))
    (true, st)
  else
    let st := logPrint st
      "requirements.txt not found. Please create it with your project dependencies."
    (false, st)

/-- Prefix test on strings via character lists (kernel-reducible). -/
def strStarts (s t : String) : Bool :=
  List.isPrefixOf t.data s.data

/-! ## Basic filesystem lemmas -/

lemma FS.read_write_self (fs : FS) (p : List String) (c : String) :
    (fs.write p c).read p = some c := by
  simp [FS.read, FS.write, lookupFile]

lemma FS.read_write_ne (fs : FS) {p q : List String} (h : p ≠ q) (c : String) :
    (fs.write p c).read q = fs.read q := by
  simp [FS.read, FS.write, lookupFile, h]

lemma lookup_remove_keep (p q : List String) (h : p ≠ q) :
    ∀ l : List (List String × String),
      lookupFile (removeFile l p) q = lookupFile l q
  | [] => rfl
  | e :: l => by
    by_cases hp : e.1 = p
    · have hq : e.1 ≠ q := by
        rw [hp]
        exact h
      rw [removeFile, if_pos hp, lookupFile, if_neg hq, lookup_remove_keep p q h l]
    · rw [removeFile, if_neg hp, lookupFile, lookupFile]
      by_cases hq : e.1 = q
      · rw [if_pos hq, if_pos hq]
      · rw [if_neg hq, if_neg hq, lookup_remove_keep p q h l]

lemma FS.read_unlink_ne (fs : FS) {p q : List String} (h : p ≠ q) :
    (fs.unlink p).read q = fs.read q := by
  simp only [FS.read, FS.unlink]
  exact lookup_remove_keep p q h fs.files

lemma FS.files_mkdir (fs : FS) (d : List String) : (fs.mkdir d).files = fs.files := by
  unfold FS.mkdir
  split <;> rfl

lemma FS.read_mkdir (fs : FS) (d q : List String) : (fs.mkdir d).read q = fs.read q := by
  unfold FS.read
  rw [FS.files_mkdir]

lemma FS.mem_mkdir_self (fs : FS) (d : List String) : d ∈ (fs.mkdir d).dirs := by
  unfold FS.mkdir
  split
  · assumption
  · exact List.mem_cons_self _ _

lemma FS.mem_mkdir_mono (fs : FS) {x : List String} (d : List String) (h : x ∈ fs.dirs) :
    x ∈ (fs.mkdir d).dirs := by
  unfold FS.mkdir
  split
  · exact h
  · exact List.mem_cons_of_mem _ h

lemma FS.read_writeAll_ne {dir q : List String} (h : ∀ p : List String, dir ++ p ≠ q) :
    ∀ (entries : List (List String × String)) (fs : FS),
      (fs.writeAll dir entries).read q = fs.read q
  | [], fs => rfl
  | e :: rest, fs => by
    rw [FS.writeAll, FS.read_writeAll_ne h rest, FS.read_write_ne _ (h e.1)]

lemma exf_congr {fs1 fs2 : FS} {q : List String} (h : fs1.read q = fs2.read q) :
    fs1.existsFile q = fs2.existsFile q := by
  simp [FS.existsFile, h]

/-! ## Trivial state-projection lemmas -/

lemma logPrint_fs (st : RunState) (m : String) : (logPrint st m).fs = st.fs := rfl

lemma logPrint_trace (st : RunState) (m : String) :
    (logPrint st m).trace = st.trace ++ [Event.print m] := rfl

lemma runProc_fs (st : RunState) (f : List String → Int) (a : List String) :
    (runProc st f a).fs = st.fs := rfl

lemma runProc_trace (st : RunState) (f : List String → Int) (a : List String) :
    (runProc st f a).trace = st.trace ++ [Event.run a (f a)] := rfl

lemma download_file_fs (st : RunState) (net : String → String) (url : String)
    (fn : List String) : (download_file st net url fn).fs = st.fs.write fn (net url) := rfl

lemma download_file_trace (st : RunState) (net : String → String) (url : String)
    (fn : List String) :
    (download_file st net url fn).trace =
      st.trace ++ [Event.print ("Downloading " ++ url ++ "..."),
        Event.download url fn, Event.print ("Downloaded to " ++ pathStr fn)] := by
  simp [download_file, logPrint]

lemma extract_zip_fs (st : RunState) (unzip : String → List (List String × String))
    (zp dst : List String) :
    (extract_zip st unzip zp dst).fs = st.fs.writeAll dst (unzip ((st.fs.read zp).getD "")) := rfl

lemma extract_zip_trace (st : RunState) (unzip : String → List (List String × String))
    (zp dst : List String) :
    (extract_zip st unzip zp dst).trace =
      st.trace ++ [Event.print ("Extracting " ++ pathStr zp ++ "..."),
        Event.extract zp dst, Event.print ("Extracted to " ++ pathStr dst)] := by
  simp [extract_zip, logPrint]

/-! ## Path disjointness -/

lemma zip_ne_req (root : List String) : pythonZipOf root ≠ requirementsOf root := by
  simp [pythonZipOf, requirementsOf, portableDirOf, pjoin]

lemma under_python_ne_req (root p : List String) : pythonDirOf root ++ p ≠ requirementsOf root := by
  simp [pythonDirOf, requirementsOf, portableDirOf, pjoin]

lemma pip_ne_req (root : List String) : pipScriptOf root ≠ requirementsOf root := by
  simp [pipScriptOf, requirementsOf, portableDirOf, pjoin]

lemma zip_ne_act (root : List String) : pythonZipOf root ≠ activateBatOf root := by
  simp [pythonZipOf, activateBatOf, portableDirOf, pjoin]

lemma under_python_ne_act (root p : List String) : pythonDirOf root ++ p ≠ activateBatOf root := by
  simp [pythonDirOf, activateBatOf, portableDirOf, pjoin]

lemma pip_ne_act (root : List String) : pipScriptOf root ≠ activateBatOf root := by
  simp [pipScriptOf, activateBatOf, portableDirOf, pjoin]

lemma zip_ne_deact (root : List String) : pythonZipOf root ≠ deactivateBatOf root := by
  simp [pythonZipOf, deactivateBatOf, portableDirOf, pjoin]

lemma under_python_ne_deact (root p : List String) :
    pythonDirOf root ++ p ≠ deactivateBatOf root := by
  simp [pythonDirOf, deactivateBatOf, portableDirOf, pjoin]

lemma pip_ne_deact (root : List String) : pipScriptOf root ≠ deactivateBatOf root := by
  simp [pipScriptOf, deactivateBatOf, portableDirOf, pjoin]

lemma zip_ne_pip (root : List String) : pythonZipOf root ≠ pipScriptOf root := by
  simp [pythonZipOf, pipScriptOf, portableDirOf, pjoin]

lemma under_python_ne_pip (root p : List String) : pythonDirOf root ++ p ≠ pipScriptOf root := by
  simp [pythonDirOf, pipScriptOf, portableDirOf, pjoin]

lemma deact_ne_act (root : List String) : deactivateBatOf root ≠ activateBatOf root := by
  simp [deactivateBatOf, activateBatOf, pjoin]

lemma installArgs_ne_getPipArgs (root : List String) : installArgs root ≠ getPipArgs root := by
  intro h
  have h2 := congrArg List.length h
  simp [installArgs, getPipArgs] at h2

/-! ## Step characterizations -/

lemma patch_trace (python_dir : List String) (st : RunState) :
    (patch_pth python_dir st).trace = st.trace := by
  unfold patch_pth
  dsimp only
  cases hread : st.fs.read (pjoin python_dir "python310._pth") <;> rfl

lemma patch_read_ne (python_dir : List String) (st : RunState) {q : List String}
    (h : pjoin python_dir "python310._pth" ≠ q) :
    (patch_pth python_dir st).fs.read q = st.fs.read q := by
  unfold patch_pth
  dsimp only
  cases hread : st.fs.read (pjoin python_dir "python310._pth")
  · rfl
  · exact FS.read_write_ne _ h _

lemma boot_id (pd : List String) (net : String → String) (st : RunState)
    (h : st.fs.existsFile (pjoin pd "get-pip.py") = true) :
    bootstrap_pip pd net st = st := by
  unfold bootstrap_pip
  simp [h]

lemma boot_fetch (pd : List String) (net : String → String) (st : RunState)
    (h : st.fs.existsFile (pjoin pd "get-pip.py") = false) :
    bootstrap_pip pd net st =
      { fs := st.fs.write (pjoin pd "get-pip.py") (net getPipUrl),
        trace := st.trace ++ [Event.print "Downloading get-pip.py...",
          Event.download getPipUrl (pjoin pd "get-pip.py")] } := by
  unfold bootstrap_pip
  simp [h, logPrint]

lemma boot_read_ne (pd : List String) (net : String → String) (st : RunState)
    {q : List String} (h : pjoin pd "get-pip.py" ≠ q) :
    (bootstrap_pip pd net st).fs.read q = st.fs.read q := by
  unfold bootstrap_pip
  dsimp only
  by_cases hex : st.fs.existsFile (pjoin pd "get-pip.py") = true
  · rw [if_pos hex]
  · rw [if_neg hex]
    exact FS.read_write_ne _ h _

lemma boot_exists_pip (pd : List String) (net : String → String) (st : RunState) :
    (bootstrap_pip pd net st).fs.existsFile (pjoin pd "get-pip.py") = true := by
  unfold bootstrap_pip
  dsimp only
  by_cases hex : st.fs.existsFile (pjoin pd "get-pip.py") = true
  · rw [if_pos hex]
    exact hex
  · rw [if_neg hex]
    simp [FS.existsFile, FS.read_write_self]

lemma boot_run_mem (pd : List String) (net : String → String) (st : RunState)
    (a : List String) (x : Int) :
    (Event.run a x ∈ (bootstrap_pip pd net st).trace) ↔ Event.run a x ∈ st.trace := by
  unfold bootstrap_pip
  dsimp only
  by_cases hex : st.fs.existsFile (pjoin pd "get-pip.py") = true
  · rw [if_pos hex]
  · rw [if_neg hex]
    simp [logPrint]

/-! ## Specialized frame lemmas keyed on the concrete workflow paths -/

lemma wzip_read_req (root : List String) (fs : FS) (c : String) :
    (fs.write (pythonZipOf root) c).read (requirementsOf root) = fs.read (requirementsOf root) :=
  FS.read_write_ne _ (zip_ne_req root) _

lemma wall_read_req (root : List String) (entries : List (List String × String)) (fs : FS) :
    (fs.writeAll (pythonDirOf root) entries).read (requirementsOf root) =
      fs.read (requirementsOf root) :=
  FS.read_writeAll_ne (fun p => under_python_ne_req root p) entries fs

lemma ul_read_req (root : List String) (fs : FS) :
    (fs.unlink (pythonZipOf root)).read (requirementsOf root) = fs.read (requirementsOf root) :=
  FS.read_unlink_ne _ (zip_ne_req root)

lemma patch_read_req (root : List String) (st : RunState) :
    (patch_pth (pythonDirOf root) st).fs.read (requirementsOf root) =
      st.fs.read (requirementsOf root) :=
  patch_read_ne _ _ (under_python_ne_req root ["python310._pth"])

lemma boot_read_req (root : List String) (net : String → String) (st : RunState) :
    (bootstrap_pip (portableDirOf root) net st).fs.read (requirementsOf root) =
      st.fs.read (requirementsOf root) :=
  boot_read_ne _ _ _ (pip_ne_req root)

lemma wzip_read_act (root : List String) (fs : FS) (c : String) :
    (fs.write (pythonZipOf root) c).read (activateBatOf root) = fs.read (activateBatOf root) :=
  FS.read_write_ne _ (zip_ne_act root) _

lemma wall_read_act (root : List String) (entries : List (List String × String)) (fs : FS) :
    (fs.writeAll (pythonDirOf root) entries).read (activateBatOf root) =
      fs.read (activateBatOf root) :=
  FS.read_writeAll_ne (fun p => under_python_ne_act root p) entries fs

lemma ul_read_act (root : List String) (fs : FS) :
    (fs.unlink (pythonZipOf root)).read (activateBatOf root) = fs.read (activateBatOf root) :=
  FS.read_unlink_ne _ (zip_ne_act root)

lemma patch_read_act (root : List String) (st : RunState) :
    (patch_pth (pythonDirOf root) st).fs.read (activateBatOf root) =
      st.fs.read (activateBatOf root) :=
  patch_read_ne _ _ (under_python_ne_act root ["python310._pth"])

lemma boot_read_act (root : List String) (net : String → String) (st : RunState) :
    (bootstrap_pip (portableDirOf root) net st).fs.read (activateBatOf root) =
      st.fs.read (activateBatOf root) :=
  boot_read_ne _ _ _ (pip_ne_act root)

lemma wzip_read_deact (root : List String) (fs : FS) (c : String) :
    (fs.write (pythonZipOf root) c).read (deactivateBatOf root) =
      fs.read (deactivateBatOf root) :=
  FS.read_write_ne _ (zip_ne_deact root) _

lemma wall_read_deact (root : List String) (entries : List (List String × String)) (fs : FS) :
    (fs.writeAll (pythonDirOf root) entries).read (deactivateBatOf root) =
      fs.read (deactivateBatOf root) :=
  FS.read_writeAll_ne (fun p => under_python_ne_deact root p) entries fs

lemma ul_read_deact (root : List String) (fs : FS) :
    (fs.unlink (pythonZipOf root)).read (deactivateBatOf root) = fs.read (deactivateBatOf root) :=
  FS.read_unlink_ne _ (zip_ne_deact root)

lemma patch_read_deact (root : List String) (st : RunState) :
    (patch_pth (pythonDirOf root) st).fs.read (deactivateBatOf root) =
      st.fs.read (deactivateBatOf root) :=
  patch_read_ne _ _ (under_python_ne_deact root ["python310._pth"])

lemma boot_read_deact (root : List String) (net : String → String) (st : RunState) :
    (bootstrap_pip (portableDirOf root) net st).fs.read (deactivateBatOf root) =
      st.fs.read (deactivateBatOf root) :=
  boot_read_ne _ _ _ (pip_ne_deact root)

lemma wzip_read_pip (root : List String) (fs : FS) (c : String) :
    (fs.write (pythonZipOf root) c).read (pipScriptOf root) = fs.read (pipScriptOf root) :=
  FS.read_write_ne _ (zip_ne_pip root) _

lemma wall_read_pip (root : List String) (entries : List (List String × String)) (fs : FS) :
    (fs.writeAll (pythonDirOf root) entries).read (pipScriptOf root) =
      fs.read (pipScriptOf root) :=
  FS.read_writeAll_ne (fun p => under_python_ne_pip root p) entries fs

lemma ul_read_pip (root : List String) (fs : FS) :
    (fs.unlink (pythonZipOf root)).read (pipScriptOf root) = fs.read (pipScriptOf root) :=
  FS.read_unlink_ne _ (zip_ne_pip root)

lemma patch_read_pip (root : List String) (st : RunState) :
    (patch_pth (pythonDirOf root) st).fs.read (pipScriptOf root) =
      st.fs.read (pipScriptOf root) :=
  patch_read_ne _ _ (under_python_ne_pip root ["python310._pth"])

/-! ## Claim theorems -/

/-- C1 (code bug): the spec says the patch step prepends exactly three path
lines to an existing `python310._pth` and preserves its original text.  The
code cannot do this: the string literal on line 81 (`pthPrefixLiteral`,
`"..\n..\src\n..\src\utils\n"` as written) is rejected by CPython's
string-literal decoding — `\utils` is a truncated `\uXXXX` escape, a
`SyntaxError` in Python 3 — so the module fails to compile and the patch
step can never rewrite the file. -/
theorem c1_pth_literal_rejected : pyDecode pthPrefixLiteral = none := by
  decide

/-- C2: `get_python_download_url` returns a well-formed (https) download URL
for every platform descriptor whose operating system lowers to `"windows"`
(both architecture buckets), and returns the unsupported sentinel `none` for
every other operating system. -/
theorem c2_download_url_cases (system machine : String) :
    (strLower system = "windows" →
      ∃ url, get_python_download_url system machine = some url
        ∧ strStarts url "https://" = true)
    ∧ (strLower system ≠ "windows" →
      get_python_download_url system machine = none) := by
  constructor
  · intro h
    by_cases hm : strLower machine = "amd64" ∨ strLower machine = "x86_64"
    · exact ⟨urlAmd64, by simp [get_python_download_url, h, hm], by decide⟩
    · exact ⟨urlWin32, by simp [get_python_download_url, h, hm], by decide⟩
  · intro h
    simp [get_python_download_url, h, ite_self]

theorem c2_download_url_cases_witness :
    (∃ url, get_python_download_url "Windows" "AMD64" = some url
      ∧ strStarts url "https://" = true)
    ∧ get_python_download_url "Linux" "x86_64" = none := by
  constructor
  · exact (c2_download_url_cases "Windows" "AMD64").1 (by decide)
  · exact (c2_download_url_cases "Linux" "x86_64").2 (by decide)

/-- C5: when `python310._pth` is not present, the patch step performs no
filesystem mutation and raises no error — it is the identity on the run
state, and the workflow continues with the unchanged state. -/
theorem c5_patch_skip_when_absent (python_dir : List String) (st : RunState)
    (h : st.fs.read (pjoin python_dir "python310._pth") = none) :
    patch_pth python_dir st = st := by
  unfold patch_pth
  dsimp only
  rw [h]

theorem c5_patch_skip_when_absent_witness :
    patch_pth (pythonDirOf ["R"]) wStEmpty = wStEmpty :=
  c5_patch_skip_when_absent (pythonDirOf ["R"]) wStEmpty (by decide)

/-- C7 counterexample: at project root `["R"]` the generation step writes
the deactivation script with its fixed content, and that content does not
contain the runtime-directory path `R\portable_python\python` — refuting
the claim that both generated scripts always contain the literal absolute
runtime-directory path. -/
theorem c7_deactivate_lacks_runtime_path :
    (create_activation_scripts ["R"] wStEmpty).fs.read (deactivateBatOf ["R"]) =
      some deactivateContent
    ∧ strContains deactivateContent (pathStr (pythonDirOf ["R"])) = false := by
  constructor
  · decide
  · decide

/-- C7 (amended): re-running `create_activation_scripts` overwrites both
scripts — the resulting contents are fixed by the project root alone,
independent of any prior state — and the activation script contains the
literal absolute runtime-directory path; the deactivation script is a fixed
constant text with no substituted path. -/
theorem c7_activation_scripts_overwrite (root : List String) (st : RunState) :
    (create_activation_scripts root st).fs.read (activateBatOf root) =
      some (activateContent (pathStr root) (pathStr (pythonDirOf root)))
    ∧ (create_activation_scripts root st).fs.read (deactivateBatOf root) =
      some deactivateContent
    ∧ (∃ x y, activateContent (pathStr root) (pathStr (pythonDirOf root)) =
        x ++ (pathStr (pythonDirOf root) ++ y)) := by
  refine ⟨?_, ?_, ?_⟩
  · unfold create_activation_scripts
    simp only [logPrint_fs]
    rw [FS.read_write_ne _ (deact_ne_act root) _, FS.read_write_self]
  · unfold create_activation_scripts
    simp only [logPrint_fs]
    rw [FS.read_write_self]
  · refine ⟨"@echo off\necho Activating portable Python environment...\nset PYTHONPATH=" ++
      pathStr root ++ ";" ++ pathStr root ++ "\\src;" ++ pathStr root ++
      "\\src\\utils;%PYTHONPATH%\nset PATH=",
      ";" ++ pathStr (pythonDirOf root) ++
      "\\Scripts;%PATH%\necho Portable Python environment activated.\necho To run the application, use: python src\\main.py\ncmd /k\n", ?_⟩
    simp [activateContent, String.append_assoc]

/-- C8: within the workflow, the pip bootstrap fetch runs if and only if no
previously fetched `get-pip.py` exists at the expected path: when a copy
exists the step is the identity (no fetch, file unchanged); when absent, the
installer is fetched from the fixed URL and stored at that path. -/
theorem c8_getpip_fetch_iff_absent (pd : List String) (net : String → String)
    (st : RunState) :
    (st.fs.existsFile (pjoin pd "get-pip.py") = true → bootstrap_pip pd net st = st)
    ∧ (st.fs.existsFile (pjoin pd "get-pip.py") = false →
        (bootstrap_pip pd net st).trace =
          st.trace ++ [Event.print "Downloading get-pip.py...",
            Event.download getPipUrl (pjoin pd "get-pip.py")]
        ∧ (bootstrap_pip pd net st).fs.read (pjoin pd "get-pip.py") =
          some (net getPipUrl)) := by
  constructor
  · intro h
    exact boot_id pd net st h
  · intro h
    rw [boot_fetch pd net st h]
    exact ⟨rfl, FS.read_write_self _ _ _⟩

theorem c8_getpip_fetch_iff_absent_witness :
    bootstrap_pip ["P"] wNet wStPip = wStPip
    ∧ (bootstrap_pip ["P"] wNet wStEmpty).fs.read (pjoin ["P"] "get-pip.py") =
      some (wNet getPipUrl) := by
  constructor
  · exact (c8_getpip_fetch_iff_absent ["P"] wNet wStPip).1 (by decide)
  · exact ((c8_getpip_fetch_iff_absent ["P"] wNet wStEmpty).2 (by decide)).2

/-- C4: on every unsupported platform descriptor the workflow prints the
diagnostic, returns the failure flag, and performs no download, extraction
or subprocess step: the trace holds exactly the three prints and the file
store is unchanged. -/
theorem c4_unsupported_aborts (system machine : String) (root : List String)
    (net : String → String) (unzip : String → List (List String × String))
    (exitOf : List String → Int) (fs0 : FS)
    (h : get_python_download_url system machine = none) :
    (setup_portable_python system machine root net unzip exitOf fs0).1 = false
    ∧ (setup_portable_python system machine root net unzip exitOf fs0).2.trace =
      [Event.print ("Setting up portable Python environment in " ++
          pathStr (pythonDirOf root)),
       Event.print "Could not determine Python download URL for your system.",
       Event.print "Please install Python 3.10 manually in the portable_python/python directory."]
    ∧ (setup_portable_python system machine root net unzip exitOf fs0).2.fs.files =
      fs0.files := by
  unfold setup_portable_python
  rw [h]
  refine ⟨rfl, by simp [logPrint], by simp [logPrint, FS.files_mkdir]⟩

theorem c4_unsupported_aborts_witness :
    (setup_portable_python "Linux" "x86_64" ["R"] wNet wUnzip wExit wFS).1 = false
    ∧ (setup_portable_python "Linux" "x86_64" ["R"] wNet wUnzip wExit wFS).2.fs.files =
      wFS.files := by
  have h := c4_unsupported_aborts "Linux" "x86_64" ["R"] wNet wUnzip wExit wFS (by decide)
  exact ⟨h.1, h.2.2⟩

/-- C9: the two workflow directories are created before platform resolution
is consulted, so they exist in the final state even when the run fails on an
unsupported platform and returns the failure flag. -/
theorem c9_dirs_exist_on_unsupported (system machine : String) (root : List String)
    (net : String → String) (unzip : String → List (List String × String))
    (exitOf : List String → Int) (fs0 : FS)
    (h : get_python_download_url system machine = none) :
    (setup_portable_python system machine root net unzip exitOf fs0).1 = false
    ∧ portableDirOf root ∈
      (setup_portable_python system machine root net unzip exitOf fs0).2.fs.dirs
    ∧ pythonDirOf root ∈
      (setup_portable_python system machine root net unzip exitOf fs0).2.fs.dirs := by
  unfold setup_portable_python
  rw [h]
  exact ⟨rfl, FS.mem_mkdir_mono _ _ (FS.mem_mkdir_self _ _), FS.mem_mkdir_self _ _⟩

theorem c9_dirs_exist_on_unsupported_witness :
    (setup_portable_python "Darwin" "arm64" ["R"] wNet wUnzip wExit wFS).1 = false
    ∧ portableDirOf ["R"] ∈
      (setup_portable_python "Darwin" "arm64" ["R"] wNet wUnzip wExit wFS).2.fs.dirs := by
  have h := c9_dirs_exist_on_unsupported "Darwin" "arm64" ["R"] wNet wUnzip wExit wFS (by decide)
  exact ⟨h.1, h.2.1⟩

/-! ## Staged pipeline lemmas -/

lemma setup_supported_eq (system machine u : String) (root : List String)
    (net : String → String) (unzip : String → List (List String × String))
    (exitOf : List String → Int) (fs0 : FS)
    (hsup : get_python_download_url system machine = some u) :
    setup_portable_python system machine root net unzip exitOf fs0 =
      setupSupported root net unzip exitOf u fs0 := by
  unfold setup_portable_python setupSupported preInstallState
  rw [hsup]

lemma pre_read_req (root : List String) (net : String → String)
    (unzip : String → List (List String × String)) (u : String) (fs0 : FS) :
    (preInstallState root net unzip u fs0).fs.read (requirementsOf root) =
      fs0.read (requirementsOf root) := by
  unfold preInstallState
  simp only [patch_read_req, ul_read_req, extract_zip_fs, wall_read_req,
    download_file_fs, wzip_read_req, logPrint_fs, FS.read_mkdir]

lemma pre_read_act (root : List String) (net : String → String)
    (unzip : String → List (List String × String)) (u : String) (fs0 : FS) :
    (preInstallState root net unzip u fs0).fs.read (activateBatOf root) =
      fs0.read (activateBatOf root) := by
  unfold preInstallState
  simp only [patch_read_act, ul_read_act, extract_zip_fs, wall_read_act,
    download_file_fs, wzip_read_act, logPrint_fs, FS.read_mkdir]

lemma pre_read_deact (root : List String) (net : String → String)
    (unzip : String → List (List String × String)) (u : String) (fs0 : FS) :
    (preInstallState root net unzip u fs0).fs.read (deactivateBatOf root) =
      fs0.read (deactivateBatOf root) := by
  unfold preInstallState
  simp only [patch_read_deact, ul_read_deact, extract_zip_fs, wall_read_deact,
    download_file_fs, wzip_read_deact, logPrint_fs, FS.read_mkdir]

lemma pre_read_pip (root : List String) (net : String → String)
    (unzip : String → List (List String × String)) (u : String) (fs0 : FS) :
    (preInstallState root net unzip u fs0).fs.read (pipScriptOf root) =
      fs0.read (pipScriptOf root) := by
  unfold preInstallState
  simp only [patch_read_pip, ul_read_pip, extract_zip_fs, wall_read_pip,
    download_file_fs, wzip_read_pip, logPrint_fs, FS.read_mkdir]

lemma pre_run_not_mem (root : List String) (net : String → String)
    (unzip : String → List (List String × String)) (u : String) (fs0 : FS)
    (a : List String) (x : Int) :
    Event.run a x ∉ (preInstallState root net unzip u fs0).trace := by
  unfold preInstallState
  simp [patch_trace, extract_zip_trace, download_file_trace, logPrint_trace]

/-- C3: when no `requirements.txt` exists at the project root, the workflow
returns the failure flag and never invokes the dependency-installation
subprocess (`python -m pip install -r requirements.txt ...`). -/
theorem c3_missing_requirements_no_install (system machine u : String)
    (root : List String) (net : String → String)
    (unzip : String → List (List String × String)) (exitOf : List String → Int)
    (fs0 : FS)
    (hsup : get_python_download_url system machine = some u)
    (hreq : fs0.existsFile (requirementsOf root) = false) :
    (setup_portable_python system machine root net unzip exitOf fs0).1 = false
    ∧ ∀ x : Int, Event.run (installArgs root) x ∉
      (setup_portable_python system machine root net unzip exitOf fs0).2.trace := by
  rw [setup_supported_eq system machine u root net unzip exitOf fs0 hsup]
  unfold setupSupported
  have hreq2 : (fs0.read (requirementsOf root)).isSome = false := hreq
  simp only [runProc_fs, logPrint_fs, FS.existsFile, boot_read_req, pre_read_req, hreq2,
    Bool.false_eq_true, if_false]
  refine ⟨trivial, ?_⟩
  intro x hx
  simp only [logPrint_trace, runProc_trace, List.mem_append, List.mem_singleton,
    boot_run_mem] at hx
  simp [pre_run_not_mem root net unzip u fs0, installArgs_ne_getPipArgs root] at hx

theorem c3_missing_requirements_no_install_witness :
    (setup_portable_python "Windows" "AMD64" ["R"] wNet wUnzip wExit wFS).1 = false
    ∧ Event.run (installArgs ["R"]) 0 ∉
      (setup_portable_python "Windows" "AMD64" ["R"] wNet wUnzip wExit wFS).2.trace := by
  have h := c3_missing_requirements_no_install "Windows" "AMD64" urlAmd64 ["R"]
    wNet wUnzip wExit wFS (by decide) (by decide)
  exact ⟨h.1, h.2 0⟩

/-- C6: the exit codes of the two invoked subprocesses are never inspected:
the workflow result is identical under any two exit-code oracles, and on the
path where both subprocesses run (supported platform, manifest present) the
workflow still returns the success flag. -/
theorem c6_subprocess_exit_ignored (system machine u : String) (root : List String)
    (net : String → String) (unzip : String → List (List String × String))
    (f g : List String → Int) (fs0 : FS)
    (hsup : get_python_download_url system machine = some u)
    (hreq : fs0.existsFile (requirementsOf root) = true) :
    (setup_portable_python system machine root net unzip f fs0).1 =
      (setup_portable_python system machine root net unzip g fs0).1
    ∧ (setup_portable_python system machine root net unzip f fs0).1 = true := by
  have key : ∀ e : List String → Int,
      (setup_portable_python system machine root net unzip e fs0).1 = true := by
    intro e
    rw [setup_supported_eq system machine u root net unzip e fs0 hsup]
    unfold setupSupported
    have hreq2 : (fs0.read (requirementsOf root)).isSome = true := hreq
    simp only [runProc_fs, logPrint_fs, FS.existsFile, boot_read_req, pre_read_req, hreq2,
      if_true]
  exact ⟨by rw [key f, key g], key f⟩

theorem c6_subprocess_exit_ignored_witness :
    (setup_portable_python "Windows" "AMD64" ["R"] wNet wUnzip wExit wFSreq).1 =
      (setup_portable_python "Windows" "AMD64" ["R"] wNet wUnzip wExitFail wFSreq).1
    ∧ (setup_portable_python "Windows" "AMD64" ["R"] wNet wUnzip wExit wFSreq).1 = true := by
  exact c6_subprocess_exit_ignored "Windows" "AMD64" urlAmd64 ["R"] wNet wUnzip
    wExit wExitFail wFSreq (by decide) (by decide)

/-- C10: the missing-manifest failure path is not atomic: the workflow has
already fetched `get-pip.py` (when absent) and executed the pip-installer
subprocess before returning the failure flag — those effects persist in the
final state — while the activation scripts are not written. -/
theorem c10_failure_after_pip_side_effects (system machine u : String)
    (root : List String) (net : String → String)
    (unzip : String → List (List String × String)) (exitOf : List String → Int)
    (fs0 : FS)
    (hsup : get_python_download_url system machine = some u)
    (hreq : fs0.existsFile (requirementsOf root) = false) :
    (setup_portable_python system machine root net unzip exitOf fs0).1 = false
    ∧ Event.run (getPipArgs root) (exitOf (getPipArgs root)) ∈
      (setup_portable_python system machine root net unzip exitOf fs0).2.trace
    ∧ (fs0.existsFile (pipScriptOf root) = false →
        Event.download getPipUrl (pipScriptOf root) ∈
          (setup_portable_python system machine root net unzip exitOf fs0).2.trace
        ∧ (setup_portable_python system machine root net unzip exitOf fs0).2.fs.read
            (pipScriptOf root) = some (net getPipUrl))
    ∧ (setup_portable_python system machine root net unzip exitOf fs0).2.fs.read
        (activateBatOf root) = fs0.read (activateBatOf root)
    ∧ (setup_portable_python system machine root net unzip exitOf fs0).2.fs.read
        (deactivateBatOf root) = fs0.read (deactivateBatOf root) := by
  rw [setup_supported_eq system machine u root net unzip exitOf fs0 hsup]
  unfold setupSupported
  have hreq2 : (fs0.read (requirementsOf root)).isSome = false := hreq
  simp only [runProc_fs, logPrint_fs, FS.existsFile, boot_read_req, pre_read_req, hreq2,
    Bool.false_eq_true, if_false]
  refine ⟨trivial, ?_, ?_, ?_, ?_⟩
  · simp [logPrint_trace, runProc_trace]
  · intro hpip0
    have hpre : (preInstallState root net unzip u fs0).fs.existsFile
        (pjoin (portableDirOf root) "get-pip.py") = false := by
      show (preInstallState root net unzip u fs0).fs.existsFile (pipScriptOf root) = false
      unfold FS.existsFile
      rw [pre_read_pip]
      exact hpip0
    rw [boot_fetch _ net _ hpre]
    constructor
    · simp [logPrint_trace, runProc_trace, pipScriptOf]
    · simp only [logPrint_fs, runProc_fs]
      exact FS.read_write_self _ _ _
  · simp only [logPrint_fs, runProc_fs, boot_read_act, pre_read_act]
  · simp only [logPrint_fs, runProc_fs, boot_read_deact, pre_read_deact]

theorem c10_failure_after_pip_side_effects_witness :
    (setup_portable_python "Windows" "AMD64" ["R"] wNet wUnzip wExit wFS).2.fs.read
      (pipScriptOf ["R"]) = some (wNet getPipUrl)
    ∧ Event.run (getPipArgs ["R"]) (wExit (getPipArgs ["R"])) ∈
      (setup_portable_python "Windows" "AMD64" ["R"] wNet wUnzip wExit wFS).2.trace
    ∧ (setup_portable_python "Windows" "AMD64" ["R"] wNet wUnzip wExit wFS).2.fs.read
        (activateBatOf ["R"]) = wFS.read (activateBatOf ["R"]) := by
  have h := c10_failure_after_pip_side_effects "Windows" "AMD64" urlAmd64 ["R"]
    wNet wUnzip wExit wFS (by decide) (by decide)
  exact ⟨(h.2.2.1 (by decide)).2, h.2.1, h.2.2.2.1⟩
